import Mathlib

/-!
Shallow embedding of the session-scoped multi-turn orchestration core of the
finance-agent demo server (demo/server.ts) and, where the deciding code lives
outside the repository snapshot (the tool registry and turn driver of
agent.ts / the ADK runner), models built from the specification's words.
-/

set_option maxRecDepth 4096

/-- JSON-like values carried in tool arguments and session scratch state. -/
inductive JValue
  | str (s : String)
  | num (n : Int)
  | bool (b : Bool)
deriving DecidableEq, Repr

/-- Session scratch state: a mapping of string keys to values. -/
def SessState := List (String × JValue)
deriving DecidableEq, Repr

/-- A session as stored by the in-memory session service: id, owning user,
scratch state and the ordered turn history (turn records). -/
structure Session where
  id : String
  userId : String
  state : SessState
  events : List String
deriving DecidableEq, Repr

/-- The triple addressing a session: (application name, user id, conversation id). -/
def Triple := String × String × String
deriving DecidableEq, Repr

/-- The application name fixed in server.ts (`const appName = 'finance_agent_app'`). -/
def appName : String := "finance_agent_app"

/-- The in-memory session store: an association list keyed by triple. -/
def SessionStore := List (Triple × Session)
deriving DecidableEq, Repr

/-- Lookup of a session by triple; `none` models `getSession` throwing
when the session does not exist. -/
def findSession : SessionStore → Triple → Option Session
  | [], _ => none
  | (k, s) :: rest, t => if k = t then some s else findSession rest t

/-- Insert a session for a triple, overwriting any existing binding; this is
`createSession`, which per the repository README overwrites an existing
session with the same id. -/
def putSession : SessionStore → Triple → Session → SessionStore
  | [], t, s => [(t, s)]
  | (k, s0) :: rest, t, s =>
      if k = t then (t, s) :: rest else (k, s0) :: putSession rest t s

/-- The fresh session `createSession` builds for server.ts's call site:
`state: {}` and empty turn history. -/
def freshSession (userId sessionId : String) : Session :=
  { id := sessionId, userId := userId, state := [], events := [] }

/-- Session resolution as written in server.ts lines 88-111: try
`getSession`; on failure (absence) call `createSession` with empty state. -/
def resolveSession (store : SessionStore) (userId sessionId : String) :
    Session × SessionStore :=
  match findSession store (appName, userId, sessionId) with
  | some s => (s, store)
  | none =>
      let s := freshSession userId sessionId
      (s, putSession store (appName, userId, sessionId) s)

/-- After `putSession`, looking up the same triple finds the new session. -/
theorem findSession_putSession_self (store : SessionStore) (t : Triple) (s : Session) :
    findSession (putSession store t s) t = some s := by
  induction store with
  | nil => simp [putSession, findSession]
  | cons hd tl ih =>
      obtain ⟨k, s0⟩ := hd
      by_cases h : k = t
      · simp [putSession, findSession, h]
      · simp [putSession, findSession, h, ih]

/-- The session a resolve returns is the one the resulting store holds
for the triple. -/
theorem resolveSession_found (store : SessionStore) (u sid : String) :
    findSession (resolveSession store u sid).2 (appName, u, sid) =
      some (resolveSession store u sid).1 := by
  unfold resolveSession
  cases h : findSession store (appName, u, sid) with
  | none => simpa using findSession_putSession_self store (appName, u, sid) _
  | some s => simpa using h

/-- When the triple is present, resolve returns the stored session and
leaves the store unchanged. -/
theorem resolveSession_of_found (store : SessionStore) (u sid : String)
    (s : Session) (h : findSession store (appName, u, sid) = some s) :
    resolveSession store u sid = (s, store) := by
  unfold resolveSession
  rw [h]

/-- Resolving twice is stable: the second resolve returns the session and
store produced by the first. -/
theorem resolveSession_idem (store : SessionStore) (u sid : String) :
    resolveSession (resolveSession store u sid).2 u sid =
      ((resolveSession store u sid).1, (resolveSession store u sid).2) :=
  resolveSession_of_found _ u sid _ (resolveSession_found store u sid)

/-- Claim C1: for every triple, the first resolve creates a session with
empty state and empty turn history and stores it; every subsequent resolve
of the same triple returns the session currently stored for it (whatever
its accumulated state), never a fresh empty one; and the session returned
is exactly the one the resulting store holds. -/
theorem session_resolve_get_or_create (store : SessionStore) (u sid : String) :
    (findSession store (appName, u, sid) = none →
        resolveSession store u sid =
          (freshSession u sid,
           putSession store (appName, u, sid) (freshSession u sid)) ∧
        (freshSession u sid).state = [] ∧ (freshSession u sid).events = []) ∧
    (∀ s, findSession store (appName, u, sid) = some s →
        resolveSession store u sid = (s, store)) ∧
    (resolveSession (resolveSession store u sid).2 u sid =
        ((resolveSession store u sid).1, (resolveSession store u sid).2)) := by
  refine ⟨fun h => ?_, fun s h => ?_, resolveSession_idem store u sid⟩
  · constructor
    · unfold resolveSession
      rw [h]
    · exact ⟨rfl, rfl⟩
  · unfold resolveSession
    rw [h]

/-- Witness for C1 at a concrete triple on the empty store. -/
theorem session_resolve_get_or_create_witness :
    resolveSession [] "u1" "s1" =
      (freshSession "u1" "s1",
       putSession [] (appName, "u1", "s1") (freshSession "u1" "s1")) :=
  ((session_resolve_get_or_create [] "u1" "s1").1 (by rfl)).1

/-! ## C2: the resolve operation interleaved between two concurrent callers.

server.ts resolves a session in two awaited steps: `getSession`, then on its
failure `createSession`. Each caller is a tiny program with a phase; a
schedule interleaves single steps of the two callers over the shared store. -/

/-- The phase of one in-flight resolve call: not yet started, lookup done and
session absent (about to create), or finished holding a session that was
found or created. -/
inductive Phase
  | start
  | missed
  | got (s : Session)
  | created (s : Session)
deriving DecidableEq, Repr

/-- One step of a single caller's two-step resolve (lookup, then create on
miss) over the shared store. Finished callers do nothing. -/
def phaseStep (t : Triple) (fresh : Session) :
    SessionStore → Phase → SessionStore × Phase
  | st, .start =>
      match findSession st t with
      | some s => (st, .got s)
      | none => (st, .missed)
  | st, .missed => (putSession st t fresh, .created fresh)
  | st, .got s => (st, .got s)
  | st, .created s => (st, .created s)

/-- Shared state of two concurrent callers resolving the same triple. -/
structure TwoCallers where
  store : SessionStore
  a : Phase
  b : Phase
deriving DecidableEq, Repr

/-- Run one scheduled step: `false` steps caller A, `true` steps caller B. -/
def schedStep (t : Triple) (fresh : Session) (c : TwoCallers) :
    Bool → TwoCallers
  | false =>
      let (st, p) := phaseStep t fresh c.store c.a
      { c with store := st, a := p }
  | true =>
      let (st, p) := phaseStep t fresh c.store c.b
      { c with store := st, b := p }

/-- Run a whole schedule of interleaved steps. -/
def runSched (t : Triple) (fresh : Session) : List Bool → TwoCallers → TwoCallers
  | [], c => c
  | m :: ms, c => runSched t fresh ms (schedStep t fresh c m)

/-- Whether one caller's resolve ended by creating a session. -/
def isCreated : Phase → Bool
  | .created _ => true
  | _ => false

/-- How many of the two callers created a session. -/
def createdCount (c : TwoCallers) : Nat :=
  (if isCreated c.a then 1 else 0) + (if isCreated c.b then 1 else 0)

/-- Claim C2, counterexample: under the schedule A-lookup, B-lookup,
A-create, B-create on a triple no one had resolved, both callers create a
session — two creations, not exactly one — because the lookup and the
create are two separate steps with a gap between them. -/
theorem resolve_interleaved_double_creation :
    createdCount
      (runSched (appName, "u", "s") (freshSession "u" "s")
        [false, true, false, true]
        { store := [], a := .start, b := .start }) = 2 := by
  decide

/-- Number of creations performed by `n` back-to-back (non-interleaved)
resolves of the same triple, each running to completion before the next. -/
def seqCreations : Nat → SessionStore → String → String → Nat
  | 0, _, _, _ => 0
  | n + 1, store, u, sid =>
      (if (findSession store (appName, u, sid)).isNone then 1 else 0) +
        seqCreations n (resolveSession store u sid).2 u sid

/-- Once the triple is present, further sequential resolves create nothing. -/
theorem seqCreations_of_found (n : Nat) :
    ∀ (store : SessionStore) (u sid : String) (s : Session),
      findSession store (appName, u, sid) = some s →
      seqCreations n store u sid = 0 := by
  induction n with
  | zero => intro store u sid s _; rfl
  | succ n ih =>
      intro store u sid s h
      rw [seqCreations, resolveSession_of_found store u sid s h, h]
      simpa using ih store u sid s h

/-- Claim C2, amended part: when the resolves do not interleave, the first
call on an unseen triple creates the one session and all later calls find
it: exactly one creation across any number of sequential resolves, and
every subsequent resolve returns exactly the session the first one
produced, unchanged store. -/
theorem resolve_sequential_single_creation (n : Nat) (store : SessionStore)
    (u sid : String) (h : findSession store (appName, u, sid) = none) :
    seqCreations (n + 1) store u sid = 1 ∧
    resolveSession (resolveSession store u sid).2 u sid =
      ((resolveSession store u sid).1, (resolveSession store u sid).2) := by
  refine ⟨?_, resolveSession_idem store u sid⟩
  rw [seqCreations, h]
  simp only [Option.isNone_none, if_pos rfl]
  have hfound := resolveSession_found store u sid
  rw [seqCreations_of_found n _ u sid _ hfound]
  simp

/-- Witness for the amended C2 at a concrete triple on the empty store. -/
theorem resolve_sequential_single_creation_witness :
    seqCreations 3 [] "u2" "s2" = 1 :=
  (resolve_sequential_single_creation 2 [] "u2" "s2" rfl).1

/-! ## The streaming callback of server.ts lines 114-182. -/

/-- JavaScript string truthiness for optional string fields: absent and
empty strings are falsy. -/
def isTruthy : Option String → Bool
  | none => false
  | some s => !s.isEmpty

/-- An ADK event as the server.ts loop reads it: optional error code and
message, the first content part's optional text, and the final flag. -/
structure AdkEvent where
  errorCode : Option String
  errorMessage : Option String
  text : Option String
  final : Bool
deriving DecidableEq, Repr

/-- How the model collaborator's event sequence ends: normally, or by
throwing with a message (transport-class failure). -/
inductive ModelOutcome
  | done
  | throws (msg : String)
deriving DecidableEq, Repr

/-- One run of the model collaborator: the events it yields before the
end, and how it ends. -/
structure ModelRun where
  events : List AdkEvent
  outcome : ModelOutcome
deriving DecidableEq, Repr

/-- One chunk written to the response stream, tagged by which write site in
server.ts produced it. -/
inductive Chunk
  | text (s : String)
  | adkError (code msg : String)
  | exc (msg : String)
deriving DecidableEq, Repr

/-- The byte content each write site produces (template literals of
server.ts lines 158 and 180, and the plain text write of line 165). -/
def renderChunk : Chunk → String
  | .text s => s
  | .adkError c m => "\n[ADK ERROR " ++ c ++ "] " ++ m ++ "\n"
  | .exc m => "\n[Error: " ++ m ++ "]"

/-- The ADK-error chunk of server.ts line 158, with line 157's fallback
message for a falsy `errorMessage`. -/
def adkErrorChunk (e : AdkEvent) : Chunk :=
  .adkError (e.errorCode.getD "")
    (if isTruthy e.errorMessage then e.errorMessage.getD "" else "Unknown ADK error")

/-- The chunk sequence produced by the event loop of server.ts lines
137-181: an error event yields one terminal error chunk and stops; a truthy
text is written as-is; a final event stops; other events are skipped; an
exception from the model collaborator is caught and written as one
terminal `[Error: ...]` chunk. -/
def writeChunks : List AdkEvent → ModelOutcome → List Chunk
  | [], .done => []
  | [], .throws m => [.exc m]
  | e :: rest, out =>
      if isTruthy e.errorCode then [adkErrorChunk e]
      else if isTruthy e.text then .text (e.text.getD "") :: writeChunks rest out
      else if e.final then []
      else writeChunks rest out

/-- The error-chunk form the specification states: `[ERROR <code>] <message>`. -/
def specErrorForm (code msg : String) : String :=
  "[ERROR " ++ code ++ "] " ++ msg

/-- String append acts as list append on the underlying characters. -/
theorem string_append_data (a b : String) : (a ++ b).data = a.data ++ b.data :=
  rfl

/-- Claim C4, counterexample: an ADK error event with code 500 and message
"boom" terminates the stream with the chunk rendered as
a newline followed by `[ADK ERROR 500] boom` and a newline, which is not of
the spec's stated form `[ERROR <code>] <message>` for any code and message
(it begins with a newline and the word ADK). -/
theorem error_chunk_not_spec_form :
    writeChunks [{ errorCode := some "500", errorMessage := some "boom",
                   text := none, final := false }] .done =
      [.adkError "500" "boom"] ∧
    ¬ ∃ code msg : String,
        renderChunk (.adkError "500" "boom") = specErrorForm code msg := by
  refine ⟨rfl, ?_⟩
  rintro ⟨code, msg, h⟩
  have hd := congrArg String.data h
  rw [renderChunk, specErrorForm] at hd
  rw [string_append_data, string_append_data, string_append_data,
      string_append_data, string_append_data] at hd
  have h2 := congrArg List.head? hd
  simp at h2

/-- Whether a chunk is an error marker rather than forwarded text. -/
def isErrChunk : Chunk → Bool
  | .text _ => false
  | .adkError _ _ => true
  | .exc _ => true

/-- Claim C4, amended: every stream is a sequence of forwarded text chunks
followed by either a clean end or exactly one terminal error chunk — the
ADK-error marker or the caught-exception marker — and the adapter itself is
a total function, so no exception escapes it. -/
theorem stream_text_then_one_terminator (evs : List AdkEvent) (out : ModelOutcome) :
    ∃ (ts : List String) (tail : List Chunk),
      writeChunks evs out = ts.map Chunk.text ++ tail ∧
      (tail = [] ∨ ∃ ch, tail = [ch] ∧ isErrChunk ch = true) := by
  induction evs with
  | nil =>
      cases out with
      | done => exact ⟨[], [], rfl, Or.inl rfl⟩
      | throws m => exact ⟨[], [.exc m], rfl, Or.inr ⟨.exc m, rfl, rfl⟩⟩
  | cons e rest ih =>
      by_cases hc : isTruthy e.errorCode
      · exact ⟨[], [adkErrorChunk e], by simp [writeChunks, hc],
          Or.inr ⟨adkErrorChunk e, rfl, rfl⟩⟩
      · by_cases ht : isTruthy e.text
        · obtain ⟨ts, tail, heq, hor⟩ := ih
          exact ⟨e.text.getD "" :: ts, tail, by simp [writeChunks, hc, ht, heq], hor⟩
        · by_cases hf : e.final
          · exact ⟨[], [], by simp [writeChunks, hc, ht, hf], Or.inl rfl⟩
          · obtain ⟨ts, tail, heq, hor⟩ := ih
            exact ⟨ts, tail, by simp [writeChunks, hc, ht, hf, heq], hor⟩

/-! ## C6: abort handling in the streaming callback.

server.ts line 116-118 registers `stream.onAbort(() => console.log(...))`:
the handler only logs, and the event loop never consults the abort flag.
The loop below threads an abort signal (fired before iteration `abortAt`)
and the registered handler through the same chunk production as
`writeChunks`. -/

/-- Observable side state of the stream: whether abort was signalled and
the log lines written so far. -/
structure StreamCtx where
  aborted : Bool
  log : List String
deriving DecidableEq, Repr

/-- The abort handler registered at server.ts line 116: it only logs. -/
def onAbortHandler (ctx : StreamCtx) : StreamCtx :=
  { ctx with log := ctx.log ++ ["Stream aborted"] }

/-- Fire the abort signal at iteration `i` when scheduled there: set the
flag and run the registered handler. -/
def fireAbort (abortAt : Option Nat) (i : Nat) (ctx : StreamCtx) : StreamCtx :=
  if abortAt = some i then onAbortHandler { ctx with aborted := true } else ctx

/-- The streaming loop with an abort signal scheduled before iteration
`abortAt`: the body is exactly the event loop of server.ts lines 137-181,
which contains no check of the abort flag, so writes continue after the
signal. -/
def streamLoop (abortAt : Option Nat) :
    Nat → List AdkEvent → ModelOutcome → StreamCtx → List Chunk × StreamCtx
  | i, [], out, ctx =>
      let ctx := fireAbort abortAt i ctx
      match out with
      | .done => ([], ctx)
      | .throws m => ([.exc m], ctx)
  | i, e :: rest, out, ctx =>
      let ctx := fireAbort abortAt i ctx
      if isTruthy e.errorCode then ([adkErrorChunk e], ctx)
      else if isTruthy e.text then
        let (cs, ctx2) := streamLoop abortAt (i + 1) rest out ctx
        (.text (e.text.getD "") :: cs, ctx2)
      else if e.final then ([], ctx)
      else streamLoop abortAt (i + 1) rest out ctx

/-- Claim C6, counterexample: the model yields two text events; abort is
signalled after the first chunk is written (before iteration 1); the
second chunk is still delivered, and the handler only logged. -/
theorem abort_still_delivers_chunks :
    (streamLoop (some 1) 0
      [{ errorCode := none, errorMessage := none, text := some "a", final := false },
       { errorCode := none, errorMessage := none, text := some "b", final := false }]
      .done { aborted := false, log := [] }) =
    ([.text "a", .text "b"], { aborted := true, log := ["Stream aborted"] }) := by
  decide

/-- Claim C6, amended: the abort signal has no effect on chunk delivery —
for every abort schedule the chunks produced equal those of the plain
event loop, because the registered handler only logs and the loop never
consults the abort flag. -/
theorem abort_only_logs (abortAt : Option Nat) (evs : List AdkEvent) :
    ∀ (i : Nat) (out : ModelOutcome) (ctx : StreamCtx),
      (streamLoop abortAt i evs out ctx).1 = writeChunks evs out := by
  induction evs with
  | nil =>
      intro i out ctx
      cases out with
      | done => simp [streamLoop, writeChunks]
      | throws m => simp [streamLoop, writeChunks]
  | cons e rest ih =>
      intro i out ctx
      simp only [streamLoop, writeChunks]
      by_cases hc : isTruthy e.errorCode
      · simp [hc]
      · by_cases ht : isTruthy e.text
        · simp [hc, ht, ih _ _ _]
        · by_cases hf : e.final
          · simp [hc, ht, hf]
          · simp [hc, ht, hf, ih _ _ _]

/-! ## The /chat request handler of server.ts lines 72-183. -/

/-- The JSON body of a turn submission; absent fields are `none`
(server.ts line 73 destructures with defaults). -/
structure ChatRequest where
  message : Option String
  userId : Option String
  sessionId : Option String
deriving DecidableEq, Repr

/-- The user id after the destructuring default of server.ts line 73. -/
def effectiveUserId (req : ChatRequest) : String :=
  req.userId.getD "default-user"

/-- The session id after the destructuring default of server.ts line 73. -/
def effectiveSessionId (req : ChatRequest) : String :=
  req.sessionId.getD "default-session"

/-- The session triple a request resolves to. -/
def effectiveTriple (req : ChatRequest) : Triple :=
  (appName, effectiveUserId req, effectiveSessionId req)

/-- A /chat response: the 400 rejection of server.ts line 76, or the
streamed chunk sequence. -/
inductive ChatResponse
  | badRequest (err : String)
  | streamOut (chunks : List Chunk)
deriving DecidableEq, Repr

/-- The mock-mode flag of server.ts line 32: placeholder key DUMMY or
explicit USE_MOCK=1. -/
def mockModeOf (apiKey useMock : String) : Bool :=
  apiKey == "DUMMY" || useMock == "1"

/-- The three canned chunks of server.ts lines 125-129, written to every
mock-mode stream. -/
def mockChunks : List Chunk :=
  [.text "Hello! This is a mock agent response.\n",
   .text "I can simulate analysis, budgeting, and reports for testing.\n",
   .text "Try: \x27Analyze transactions: ...\x27 or \x27Set a budget of $100 for dining.\x27\n"]

/-- The /chat handler of server.ts lines 72-183: reject a falsy message
with 400 before any session access; in mock mode build a local session
object and stream the canned chunks without touching the session service;
otherwise resolve the session (get, else create) and stream the model
run's chunks. -/
def chatHandler (mock : Bool) (store : SessionStore) (req : ChatRequest)
    (run : ModelRun) : ChatResponse × SessionStore :=
  if !isTruthy req.message then (.badRequest "Message is required", store)
  else if mock then (.streamOut mockChunks, store)
  else
    let store2 := (resolveSession store (effectiveUserId req) (effectiveSessionId req)).2
    (.streamOut (writeChunks run.events run.outcome), store2)

/-- Claim C3: a turn submission with a missing (or falsy) message is
rejected with the 400-class response before any session access: the store
is returned unchanged, and the response does not depend on the store at
all, in either mode. -/
theorem missing_message_rejected_untouched (mock : Bool)
    (store storeB : SessionStore) (req : ChatRequest) (run runB : ModelRun)
    (h : isTruthy req.message = false) :
    chatHandler mock store req run = (.badRequest "Message is required", store) ∧
    (chatHandler mock store req run).1 = (chatHandler mock storeB req runB).1 := by
  constructor
  · unfold chatHandler
    rw [h]
    rfl
  · unfold chatHandler
    rw [h]
    rfl

/-- Witness for C3: a request with no message field on a nonempty store. -/
theorem missing_message_rejected_untouched_witness :
    chatHandler false [((appName, "u", "s"), freshSession "u" "s")]
      { message := none, userId := some "u", sessionId := some "s" }
      { events := [], outcome := .done } =
      (.badRequest "Message is required",
       [((appName, "u", "s"), freshSession "u" "s")]) :=
  (missing_message_rejected_untouched false
    [((appName, "u", "s"), freshSession "u" "s")] []
    { message := none, userId := some "u", sessionId := some "s" }
    { events := [], outcome := .done } { events := [], outcome := .done } rfl).1

/-- Claim C9: with mock mode enabled (key DUMMY or USE_MOCK=1), every
request carrying a truthy message yields exactly the three canned chunks
and the untouched store — the response is one fixed value, independent of
the message, user id, session id, model run and store contents. -/
theorem mock_mode_fixed_response (apiKey useMock : String)
    (store storeB : SessionStore) (req reqB : ChatRequest) (run runB : ModelRun)
    (hm : mockModeOf apiKey useMock = true)
    (h1 : isTruthy req.message = true) (h2 : isTruthy reqB.message = true) :
    chatHandler (mockModeOf apiKey useMock) store req run =
      (.streamOut mockChunks, store) ∧
    (chatHandler (mockModeOf apiKey useMock) store req run).1 =
      (chatHandler (mockModeOf apiKey useMock) storeB reqB runB).1 := by
  rw [hm]
  constructor
  · unfold chatHandler
    rw [h1]
    rfl
  · unfold chatHandler
    rw [h1, h2]
    rfl

/-- Witness for C9: two different requests in mock mode produce the same
fixed response on different stores. -/
theorem mock_mode_fixed_response_witness :
    chatHandler (mockModeOf "DUMMY" "") []
      { message := some "hi", userId := none, sessionId := none }
      { events := [], outcome := .done } = (.streamOut mockChunks, []) :=
  (mock_mode_fixed_response "DUMMY" "" [] [] 
    { message := some "hi", userId := none, sessionId := none }
    { message := some "analyze", userId := some "x", sessionId := some "y" }
    { events := [], outcome := .done }
    { events := [], outcome := .throws "t" } rfl rfl rfl).1

/-- Claim C10: requests omitting userId or sessionId fall back to
default-user / default-session, so any two requests omitting both resolve
the same triple; they are not rejected, and the second resolve returns
exactly the session the first one produced. -/
theorem omitted_ids_share_default_session (req reqB : ChatRequest)
    (store : SessionStore)
    (hu : req.userId = none) (hs : req.sessionId = none)
    (hub : reqB.userId = none) (hsb : reqB.sessionId = none) :
    effectiveTriple req = (appName, "default-user", "default-session") ∧
    effectiveTriple req = effectiveTriple reqB ∧
    resolveSession (resolveSession store (effectiveUserId req)
        (effectiveSessionId req)).2
        (effectiveUserId reqB) (effectiveSessionId reqB) =
      ((resolveSession store (effectiveUserId req) (effectiveSessionId req)).1,
       (resolveSession store (effectiveUserId req) (effectiveSessionId req)).2) := by
  have e1 : effectiveUserId req = "default-user" := by
    simp [effectiveUserId, hu]
  have e2 : effectiveSessionId req = "default-session" := by
    simp [effectiveSessionId, hs]
  have e3 : effectiveUserId reqB = "default-user" := by
    simp [effectiveUserId, hub]
  have e4 : effectiveSessionId reqB = "default-session" := by
    simp [effectiveSessionId, hsb]
  refine ⟨?_, ?_, ?_⟩
  · simp [effectiveTriple, e1, e2]
  · simp [effectiveTriple, e1, e2, e3, e4]
  · rw [e1, e2, e3, e4]
    exact resolveSession_idem store "default-user" "default-session"

/-- Witness for C10: two concrete requests omitting both ids. -/
theorem omitted_ids_share_default_session_witness :
    effectiveTriple { message := some "hi", userId := none, sessionId := none } =
      (appName, "default-user", "default-session") :=
  (omitted_ids_share_default_session
    { message := some "hi", userId := none, sessionId := none }
    { message := some "yo", userId := none, sessionId := none }
    [] rfl rfl rfl rfl).1

/-! ## Tool Registry and Turn Driver.

The tools and the tool-dispatch loop live in agent.ts and the ADK runner,
which are not part of this snapshot; the definitions below are modelled
from the specification (sections 3, 4.2, 4.3 and the design note of
section 9). -/

/-- The kind of a JSON-like value, for schema checking. -/
inductive VKind
  | str
  | num
  | bool
deriving DecidableEq, Repr

/-- The kind a value has. -/
def kindOf : JValue → VKind
  | .str _ => .str
  | .num _ => .num
  | .bool _ => .bool

/-- Modelled from the spec: one field of a tool's input schema — name,
type, required or optional (section 3, Tool Definition). -/
structure SchemaField where
  fname : String
  kind : VKind
  required : Bool
deriving DecidableEq, Repr

/-- Lookup of an argument by name. -/
def lookupArg : List (String × JValue) → String → Option JValue
  | [], _ => none
  | (k, v) :: rest, n => if k = n then some v else lookupArg rest n

/-- Modelled from the spec: schema validation as a pure data-validation
step (sections 4.2 and 9): every declared field is either present with the
declared type or absent and optional. -/
def validateArgs (schema : List SchemaField) (args : List (String × JValue)) : Bool :=
  schema.all fun f =>
    match lookupArg args f.fname with
    | some v => kindOf v == f.kind
    | none => !f.required

/-- Modelled from the spec: a tool definition — unique name, input schema,
and an execution function over the session's state that may fail
(section 3, Tool Definition). -/
structure Tool where
  name : String
  schema : List SchemaField
  exec : List (String × JValue) → SessState → Except String (JValue × SessState)

/-- Lookup of a tool by name in the registry. -/
def findTool : List Tool → String → Option Tool
  | [], _ => none
  | t :: ts, n => if t.name = n then some t else findTool ts n

/-- The outcome of one tool invocation, surfaced to the model as a result
or a tool-error content part — never a transport failure. -/
inductive ToolResult
  | ok (v : JValue)
  | toolError (kind msg : String)
deriving DecidableEq, Repr

/-- Modelled from the spec: `invoke(name, args, session)` of section 4.2 —
validate the arguments against the schema (SchemaValidationError on
mismatch, the body never runs and the state is untouched), then execute
the tool function; an execution failure is captured as a tool-error with
the state untouched. -/
def invokeTool (tools : List Tool) (n : String) (args : List (String × JValue))
    (st : SessState) : ToolResult × SessState :=
  match findTool tools n with
  | none => (.toolError "UnknownTool" n, st)
  | some t =>
      if validateArgs t.schema args then
        match t.exec args st with
        | .ok (v, st2) => (.ok v, st2)
        | .error m => (.toolError "ToolExecutionError" m, st)
      else (.toolError "SchemaValidationError" n, st)

/-- Modelled from the spec: a unit of model output for one turn
(section 3, Turn Event): incremental text, a tool-call request, or the
terminal final marker. -/
inductive TurnEvent
  | text (t : String)
  | toolCall (name : String) (args : List (String × JValue))
  | final
deriving DecidableEq, Repr

/-- One action the Turn Driver performs, in order: forward a text chunk to
the Stream Adapter, or dispatch a tool call and record its result. -/
inductive TurnAction
  | emit (t : String)
  | dispatch (name : String) (res : ToolResult)
deriving DecidableEq, Repr

/-- The result of driving one turn: the ordered actions, the session state
after all dispatches, the turn record (the accumulated text content), and
whether the turn reached Final. -/
structure TurnResult where
  trace : List TurnAction
  state : SessState
  record : String
  finalized : Bool
deriving DecidableEq, Repr

/-- Modelled from the spec: the Turn Driver of section 4.3 over the finite
event sequence of one turn — events are processed strictly in arrival
order; a text event is forwarded unchanged; a tool-call event triggers the
registry and its result (or tool error) joins the context; a final event,
or the end of the sequence, finalizes the turn with the accumulated
content as the turn record. -/
def driveTurn (tools : List Tool) : List TurnEvent → SessState → TurnResult
  | [], st => { trace := [], state := st, record := "", finalized := true }
  | .text t :: rest, st =>
      let r := driveTurn tools rest st
      { r with trace := .emit t :: r.trace, record := t ++ r.record }
  | .toolCall n args :: rest, st =>
      let (res, st2) := invokeTool tools n args st
      let r := driveTurn tools rest st2
      { r with trace := .dispatch n res :: r.trace }
  | .final :: _, st => { trace := [], state := st, record := "", finalized := true }

/-- Tool names dispatched by a turn, in dispatch order. -/
def TurnResult.invocations (r : TurnResult) : List String :=
  r.trace.filterMap fun a =>
    match a with
    | .dispatch n _ => some n
    | .emit _ => none

/-- Text chunks forwarded to the Stream Adapter, in emission order. -/
def TurnResult.forwarded (r : TurnResult) : List String :=
  r.trace.filterMap fun a =>
    match a with
    | .emit t => some t
    | .dispatch _ _ => none

/-- The prefix of a turn's events before its first final marker. -/
def beforeFinal : List TurnEvent → List TurnEvent
  | [] => []
  | .final :: _ => []
  | e :: rest => e :: beforeFinal rest

/-- The shape of the action an event gives rise to, keeping the order and
the payload but dropping the evolving tool results. -/
inductive ActionKind
  | emits (t : String)
  | dispatches (name : String)
deriving DecidableEq, Repr

/-- The kind of a performed action. -/
def kindOfAction : TurnAction → ActionKind
  | .emit t => .emits t
  | .dispatch n _ => .dispatches n

/-- The action kind an event demands, none for the final marker. -/
def kindOfEvent : TurnEvent → Option ActionKind
  | .text t => some (.emits t)
  | .toolCall n _ => some (.dispatches n)
  | .final => none

/-- The text payload of an event, if any. -/
def textOf : TurnEvent → Option String
  | .text t => some t
  | _ => none

/-- Concatenation of a list of text fragments. -/
def concatTexts : List String → String
  | [] => ""
  | t :: ts => t ++ concatTexts ts

/-- The actions of a turn, kind by kind, follow the events before the
first final marker exactly, in arrival order. -/
theorem driveTurn_trace_kinds (tools : List Tool) :
    ∀ (evs : List TurnEvent) (st : SessState),
      (driveTurn tools evs st).trace.map kindOfAction =
        (beforeFinal evs).filterMap kindOfEvent := by
  intro evs
  induction evs with
  | nil => intro st; rfl
  | cons e rest ih =>
      intro st
      cases e with
      | text t =>
          simp [driveTurn, beforeFinal, kindOfEvent, kindOfAction, ih st]
      | toolCall n args =>
          simp [driveTurn, beforeFinal, kindOfEvent, kindOfAction, ih _]
      | final => rfl

/-- The turn record is the concatenation of the text fragments emitted
before the first final marker, in order. -/
theorem driveTurn_record (tools : List Tool) :
    ∀ (evs : List TurnEvent) (st : SessState),
      (driveTurn tools evs st).record =
        concatTexts ((beforeFinal evs).filterMap textOf) := by
  intro evs
  induction evs with
  | nil => intro st; rfl
  | cons e rest ih =>
      intro st
      cases e with
      | text t => simp [driveTurn, beforeFinal, textOf, concatTexts, ih st]
      | toolCall n args => simp [driveTurn, beforeFinal, textOf, ih _]
      | final => rfl

/-- The five-event turn of the specification's testable property. -/
def demoTurnEvents : List TurnEvent :=
  [.text "a", .toolCall "t1" [], .toolCall "t2" [], .text "b", .final]

/-- Claim C5: every text event is forwarded unchanged and events are
processed in arrival order with tool dispatch never reordered relative to
already-emitted text (the action trace follows the event sequence kind by
kind); and the turn text, tool-call, tool-call, text, final yields the two
tool invocations in that exact order and a turn record that is the
concatenation of the two text fragments. -/
theorem turn_events_processed_in_order :
    (∀ (tools : List Tool) (evs : List TurnEvent) (st : SessState),
        (driveTurn tools evs st).trace.map kindOfAction =
          (beforeFinal evs).filterMap kindOfEvent ∧
        (driveTurn tools evs st).record =
          concatTexts ((beforeFinal evs).filterMap textOf)) ∧
    (driveTurn [] demoTurnEvents []).invocations = ["t1", "t2"] ∧
    (driveTurn [] demoTurnEvents []).record = "ab" ∧
    (driveTurn [] demoTurnEvents []).forwarded = ["a", "b"] := by
  refine ⟨fun tools evs st => ⟨driveTurn_trace_kinds tools evs st,
    driveTurn_record tools evs st⟩, ?_, ?_, ?_⟩ <;> decide

/-! ### C7: the tool-dispatch loop has no iteration ceiling in the source. -/

/-- How an observed stretch of the tool loop ends: the turn finalized, the
loop is still running when observation stops, or the turn failed with the
named error. The loop itself never produces a failure: the source has no
ToolLoopExceeded path. -/
inductive LoopOutcome
  | finalized
  | running
  | failed (msg : String)
deriving DecidableEq, Repr

/-- Modelled from the spec: the re-entrant tool-dispatch loop of section
4.3 as the source realizes it — per the design note of section 9 the
source imposes no explicit bound on tool-call loop iterations, so no cap
appears here. `mdl` is the model collaborator giving the event at each
step; `fuel` only truncates observation and is not part of the modelled
code; the loop counts dispatches in `d`. -/
def toolLoop (mdl : Nat → TurnEvent) (tools : List Tool) :
    Nat → Nat → Nat → SessState → Nat × LoopOutcome
  | 0, _, d, _ => (d, .running)
  | fuel + 1, i, d, st =>
      match mdl i with
      | .final => (d, .finalized)
      | .text _ => toolLoop mdl tools fuel (i + 1) d st
      | .toolCall n args =>
          let (_, st2) := invokeTool tools n args st
          toolLoop mdl tools fuel (i + 1) (d + 1) st2

/-- The mock model collaborator of the spec's testable property: it always
returns a tool-call. -/
def alwaysToolCall : Nat → TurnEvent :=
  fun _ => .toolCall "t" []

/-- Against the always-tool-call model the loop dispatches once per step
and never leaves the running state. -/
theorem toolLoop_alwaysToolCall :
    ∀ (fuel i d : Nat) (st : SessState),
      toolLoop alwaysToolCall [] fuel i d st = (d + fuel, .running) := by
  intro fuel
  induction fuel with
  | zero => intro i d st; rfl
  | succ fuel ih =>
      intro i d st
      show toolLoop alwaysToolCall [] (fuel + 1) i d st = _
      rw [toolLoop]
      show toolLoop alwaysToolCall [] fuel (i + 1) (d + 1)
        (invokeTool [] "t" [] st).2 = _
      rw [ih]
      have : d + 1 + fuel = d + (fuel + 1) := by omega
      rw [this]

/-- Claim C7, counterexample: a model collaborator that always returns a
tool-call drives 30 dispatches in 30 steps with the turn still running,
and for no candidate cap does the loop ever fail with ToolLoopExceeded —
the source has no iteration ceiling. -/
theorem tool_loop_no_ceiling :
    toolLoop alwaysToolCall [] 30 0 0 [] = (30, .running) ∧
    ¬ ∃ cap : Nat,
        (toolLoop alwaysToolCall [] (cap + 1) 0 0 []).2 =
          .failed "ToolLoopExceeded" := by
  constructor
  · rw [toolLoop_alwaysToolCall]
  · rintro ⟨cap, h⟩
    rw [toolLoop_alwaysToolCall] at h
    cases h

/-- Claim C7, amended: the source imposes no iteration ceiling — with a
model collaborator that always returns a tool-call, after any number n of
loop steps exactly n dispatches have occurred and the turn has neither
completed nor failed: the loop would run forever rather than fail with
ToolLoopExceeded. -/
theorem tool_loop_runs_forever (n : Nat) :
    toolLoop alwaysToolCall [] n 0 0 [] = (n, .running) := by
  rw [toolLoop_alwaysToolCall]
  simp

/-! ### C8: schema validation and failure propagation. -/

/-- A tool whose execution function always fails, to exercise the
propagation policy. -/
def failingTool : Tool :=
  { name := "boom", schema := [],
    exec := fun _ _ => .error "tool failure" }

/-- Claim C8: arguments violating the declared schema mean the tool body
never executes — the invocation returns the SchemaValidationError
tool-error with the state untouched, and the result is identical whatever
the body is; and a failure inside a tool's execution function never aborts
the turn: the driver records the tool-error and the rest of the turn
proceeds exactly as it would, reaching Final all the same. -/
theorem schema_invalid_never_executes
    (n : String) (sch : List SchemaField)
    (f g : List (String × JValue) → SessState → Except String (JValue × SessState))
    (args : List (String × JValue)) (st : SessState)
    (h : validateArgs sch args = false) :
    (invokeTool [{ name := n, schema := sch, exec := f }] n args st =
        (.toolError "SchemaValidationError" n, st) ∧
      invokeTool [{ name := n, schema := sch, exec := f }] n args st =
        invokeTool [{ name := n, schema := sch, exec := g }] n args st) ∧
    (∀ (rest : List TurnEvent) (st2 : SessState),
        (driveTurn [failingTool] (.toolCall "boom" [] :: rest) st2).finalized =
          (driveTurn [failingTool] rest st2).finalized ∧
        (driveTurn [failingTool] (.toolCall "boom" [] :: rest) st2).trace =
          .dispatch "boom" (.toolError "ToolExecutionError" "tool failure") ::
            (driveTurn [failingTool] rest st2).trace) := by
  refine ⟨⟨?_, ?_⟩, fun rest st2 => ⟨?_, ?_⟩⟩
  · simp [invokeTool, findTool, h]
  · simp [invokeTool, findTool, h]
  · simp [driveTurn, invokeTool, findTool, failingTool, validateArgs]
  · simp [driveTurn, invokeTool, findTool, failingTool, validateArgs]

/-- A schema with one required numeric field x, for the C8 witness. -/
def demoSchema : List SchemaField :=
  [{ fname := "x", kind := .num, required := true }]

/-- A tool body for the C8 witness. -/
def demoBody (r : Int) : List (String × JValue) → SessState →
    Except String (JValue × SessState) :=
  fun _ st => .ok (.num r, st)

/-- Witness for C8: a schema requiring a numeric field x rejects empty
arguments without running the body. -/
theorem schema_invalid_never_executes_witness :
    invokeTool [{ name := "add", schema := demoSchema, exec := demoBody 1 }]
      "add" [] [] = (.toolError "SchemaValidationError" "add", []) :=
  ((schema_invalid_never_executes "add" demoSchema (demoBody 1) (demoBody 2)
      [] [] rfl).1).1
